import Mathlib

/-!
Verification of the recent-enabler repository's status-detection and
remediation logic against its natural-language specification.

The repository contains two parallel iterations of the same utility:

* the comprehensive iteration (`domain.rs`, `recent.rs`, `sysmain.rs`,
  `system_restore.rs`), modelled below in namespace `RecentEnabler.dom`;
* the layered iteration (`domain/*.rs`, `services/*.rs`,
  `repositories/*.rs`), modelled in namespace `RecentEnabler.svc`.

OS interactions (registry reads/writes, Service Control Manager calls,
directory scans, PowerShell invocations) are modelled by explicit
environment records whose fields give the outcome of each primitive call;
the embedded functions are otherwise direct translations of the Rust
source.  Machine integers are modelled as `Nat` (all registry values in
the program are small DWORD constants, and no arithmetic is performed on
them, so no overflow can occur).
-/

set_option autoImplicit false

namespace RecentEnabler

/-- The two registry hives the program touches (`HKEY_CURRENT_USER` and
`HKEY_LOCAL_MACHINE`). -/
inductive Hive where
  | HKCU
  | HKLM
deriving DecidableEq, Repr

/-- Read-only registry environment: for each hive, a partial map from
(key path, value name) to a DWORD.  `none` means the key or value is
absent (or not a DWORD), exactly the cases in which the Rust helpers
`read_dword` / `read_registry_dword_from_hive` return `None`. -/
structure RegReads where
  hkcu : String → String → Option Nat
  hklm : String → String → Option Nat

/-- The four Recent-files classifications, without the payload lists,
used to compare the two iterations' status enums with the specification's
ordered algorithm. -/
inductive StatusKind where
  | FullyEnabled
  | PartiallyEnabled
  | FullyDisabled
  | DisabledByPolicy
deriving DecidableEq, Repr

/-- The data of a registry check that the specification's ordered
classification algorithm consumes: whether the check passes, whether it
has Important severity, and whether it is a Group Policy check. -/
structure CheckView where
  is_ok : Bool
  important : Bool
  is_policy : Bool
deriving DecidableEq, Repr

/-- Modelled from the spec (§4.4 algorithm, steps 2-5), for refinement
comparison with the code: if any `is_policy && !is_ok` check exists,
classify `DisabledByPolicy`; else if all Important-severity checks fail,
`FullyDisabled`; else if any check fails, `PartiallyEnabled`; else
`FullyEnabled`. -/
def spec_status (checks : List CheckView) : StatusKind :=
  if checks.any (fun c => c.is_policy && !c.is_ok) then
    .DisabledByPolicy
  else if (checks.filter (fun c => c.important)).all (fun c => !c.is_ok) then
    .FullyDisabled
  else if checks.any (fun c => !c.is_ok) then
    .PartiallyEnabled
  else
    .FullyEnabled

namespace svc

/-- `domain/recent.rs` `CheckSeverity`. -/
inductive CheckSeverity where
  | Minor
  | Important
  | Critical
deriving DecidableEq, Repr

/-- `domain/recent.rs` `RegistryCheck`. -/
structure RegistryCheck where
  name : String
  key : String
  value : String
  expected : Nat
  actual : Option Nat
  severity : CheckSeverity
  is_policy : Bool
deriving DecidableEq, Repr

/-- `RegistryCheck::is_ok`: `self.actual == Some(self.expected)`. -/
def RegistryCheck.is_ok (c : RegistryCheck) : Bool :=
  c.actual == some c.expected

/-- `domain/recent.rs` `RecentStatus`. -/
inductive RecentStatus where
  | FullyEnabled
  | PartiallyEnabled
  | FullyDisabled
  | PolicyBlocked
deriving DecidableEq, Repr

/-- Forgetful view of `svc.RecentStatus` as a `StatusKind`. -/
def RecentStatus.kind : RecentStatus → StatusKind
  | .FullyEnabled => .FullyEnabled
  | .PartiallyEnabled => .PartiallyEnabled
  | .FullyDisabled => .FullyDisabled
  | .PolicyBlocked => .DisabledByPolicy

/-- View of a `svc.RegistryCheck` as the data consumed by the
specification's classification algorithm. -/
def RegistryCheck.view (c : RegistryCheck) : CheckView :=
  { is_ok := c.is_ok
    important := c.severity == .Important
    is_policy := c.is_policy }

namespace recent

/-- `services/recent.rs` key-path constants. -/
def TRACK_DOCS_KEY : String := "Software\\Microsoft\\Windows\\CurrentVersion\\Explorer\\Advanced"

def EXPLORER_KEY : String := "Software\\Microsoft\\Windows\\CurrentVersion\\Explorer"

def POLICY_KEY : String := "Software\\Microsoft\\Windows\\CurrentVersion\\Policies\\Explorer"

/-- `services/recent.rs` `build_checks`. -/
def build_checks : List RegistryCheck :=
  [ { name := "Track Documents", key := TRACK_DOCS_KEY, value := "Start_TrackDocs"
      expected := 1, actual := none, severity := .Important, is_policy := false }
  , { name := "Track Programs", key := TRACK_DOCS_KEY, value := "Start_TrackProgs"
      expected := 1, actual := none, severity := .Important, is_policy := false }
  , { name := "Show Recent", key := EXPLORER_KEY, value := "ShowRecent"
      expected := 1, actual := none, severity := .Minor, is_policy := false }
  , { name := "Show Frequent", key := EXPLORER_KEY, value := "ShowFrequent"
      expected := 1, actual := none, severity := .Minor, is_policy := false }
  , { name := "Policy Block", key := POLICY_KEY, value := "NoRecentDocsHistory"
      expected := 0, actual := none, severity := .Critical, is_policy := true }
  , { name := "Menu Policy", key := POLICY_KEY, value := "NoRecentDocsMenu"
      expected := 0, actual := none, severity := .Critical, is_policy := true }
  ]

/-- `services/recent.rs` `check_status`. -/
def check_status (checks : List RegistryCheck) : RecentStatus :=
  if checks.any (fun c => c.is_policy && !c.is_ok) then
    .PolicyBlocked
  else if (checks.filter (fun c => c.severity == .Important)).all (fun c => !c.is_ok) then
    .FullyDisabled
  else if checks.any (fun c => !c.is_ok) then
    .PartiallyEnabled
  else
    .FullyEnabled

/-- The read loop body of `services/recent.rs` `get_info`: read HKCU
first; for policy checks, if the HKCU value is missing or equal to the
expected value, also consult HKLM and let a present HKLM value replace
it. -/
def read_check (r : RegReads) (c : RegistryCheck) : RegistryCheck :=
  let val := r.hkcu c.key c.value
  let val :=
    if c.is_policy && (val == none || val == some c.expected) then
      match r.hklm c.key c.value with
      | some hklm_val => some hklm_val
      | none => val
    else val
  { c with actual := val }

/-- The registry-check portion of `services/recent.rs` `get_info`:
the catalog populated by `read_check`. -/
def get_info_checks (r : RegReads) : List RegistryCheck :=
  build_checks.map (read_check r)

/-- The status computed by `services/recent.rs` `get_info`. -/
def get_info_status (r : RegReads) : RecentStatus :=
  check_status (get_info_checks r)

end recent

/-- `domain/common.rs` `OperationResult`. -/
structure OperationResult where
  success : Bool
  message : String
  requires_admin : Bool
deriving DecidableEq, Repr

/-- `OperationResult::success` constructor (renamed: `success` is the
field accessor in Lean). -/
def OperationResult.success_result (message : String) : OperationResult :=
  { success := true, message := message, requires_admin := false }

/-- `OperationResult::failure` constructor. -/
def OperationResult.failure_result (message : String) : OperationResult :=
  { success := false, message := message, requires_admin := false }

/-- `OperationResult::requires_admin` builder method (renamed:
`requires_admin` is the field accessor in Lean). -/
def OperationResult.with_requires_admin (r : OperationResult) : OperationResult :=
  { r with requires_admin := true }

/-- `domain/types.rs` `AppError` (string payloads of the four variants). -/
inductive AppError where
  | Registry (msg : String)
  | Service (msg : String)
  | FileSystem (msg : String)
  | Other (msg : String)
deriving DecidableEq, Repr

/-- Write environment for `services/recent.rs` `enable`: whether each
`write_hkcu` / `write_hklm` call on a given (key, value name) succeeds. -/
structure WriteEnv where
  hkcuOk : String → String → Bool
  hklmOk : String → String → Bool

namespace recent

/-- One registry write attempt performed by an enable operation:
(hive, key path, value name). -/
abbrev Write := Hive × String × String

/-- Accumulated loop state and final result of `services/recent.rs`
`enable`: the produced `OperationResult`, every write that was attempted
(in order), and the source's `fixed` / `needs_admin` locals. -/
structure EnableOut where
  res : OperationResult
  writes : List Write
  fixed : Nat
  needs_admin : Bool
deriving Repr

/-- Loop body of `services/recent.rs` `enable` for one check, threading
(fixed, needs_admin, writes).  For a policy check the expected value is
written to HKCU and then to HKLM (a failed HKLM write sets `needs_admin`,
a successful write on either hive counts the check as fixed); for a
non-policy check only HKCU is written. -/
def enable_step (env : WriteEnv) (acc : Nat × Bool × List Write)
    (check : RegistryCheck) : Nat × Bool × List Write :=
  match acc with
  | (fixed, needs_admin, writes) =>
    if check.is_policy then
      let policy_fixed := env.hkcuOk check.key check.value
      let needs_admin := needs_admin || !env.hklmOk check.key check.value
      let policy_fixed := policy_fixed || env.hklmOk check.key check.value
      let writes := writes ++ [(Hive.HKCU, check.key, check.value), (Hive.HKLM, check.key, check.value)]
      (if policy_fixed then fixed + 1 else fixed, needs_admin, writes)
    else
      let writes := writes ++ [(Hive.HKCU, check.key, check.value)]
      (if env.hkcuOk check.key check.value then fixed + 1 else fixed, needs_admin, writes)

/-- Result assembly at the end of `services/recent.rs` `enable`:
`success("Enabled {fixed} settings")`, then if `needs_admin` append
" (some policy settings require admin)" and set `requires_admin`. -/
def enable_finalize (fixed : Nat) (needs_admin : Bool) (writes : List Write) : EnableOut :=
  let res := OperationResult.success_result ("Enabled " ++ toString fixed ++ " settings")
  let res :=
    if needs_admin then
      (OperationResult.with_requires_admin
        { res with message := res.message ++ " (some policy settings require admin)" })
    else res
  { res := res, writes := writes, fixed := fixed, needs_admin := needs_admin }

/-- `services/recent.rs` `enable` (the remediation operation), with the
outcome of each registry write supplied by `env`.  The source returns
`Ok(res)` unconditionally; the `Result` wrapper is omitted. -/
def enable (env : WriteEnv) : EnableOut :=
  match build_checks.foldl (enable_step env) (0, false, []) with
  | (fixed, needs_admin, writes) => enable_finalize fixed needs_admin writes

end recent

/-- Outcomes of the primitive Service Control Manager calls made by the
layered iteration (`repositories/windows_service.rs`): for each call, the
OS error message when it fails, or `none` on success.  `startErr` is the
outcome of `StartServiceW`, which `start_service` ignores. -/
structure ScmCallEnv where
  scmErr : Option String
  openErr : Option String
  changeErr : Option String
  startErr : Option String

/-- `repositories/windows_service.rs` `open_scm`. -/
def open_scm (e : ScmCallEnv) : Except AppError Unit :=
  match e.scmErr with
  | some msg => .error (.Service ("Failed to open SCM: " ++ msg))
  | none => .ok ()

/-- `repositories/windows_service.rs` `open_service`. -/
def open_service (e : ScmCallEnv) (name : String) : Except AppError Unit :=
  match e.openErr with
  | some msg => .error (.Service ("Failed to open service " ++ name ++ ": " ++ msg))
  | none => .ok ()

/-- `repositories/windows_service.rs` `set_service_auto_start`
(`ChangeServiceConfigW` with `SERVICE_AUTO_START`; a failure is converted
to `AppError::Service` by the `From<windows::core::Error>` impl). -/
def set_service_auto_start (e : ScmCallEnv) : Except AppError Unit :=
  match e.changeErr with
  | some msg => .error (.Service msg)
  | none => .ok ()

/-- `repositories/windows_service.rs` `start_service`: the result of
`StartServiceW` is discarded (`let _ = StartServiceW(...)`) and `Ok(())`
is returned unconditionally. -/
def start_service (_e : ScmCallEnv) : Except AppError Unit :=
  .ok ()

namespace prefetch

/-- `services/prefetch.rs` `enable`: open the SCM, open the SysMain
service with change-config and start rights, set auto-start, start the
service; every step propagates its error with `?`. -/
def enable (e : ScmCallEnv) : Except AppError OperationResult := do
  let _ ← open_scm e
  let _ ← open_service e "SysMain"
  let _ ← set_service_auto_start e
  let _ ← start_service e
  pure (OperationResult.success_result "Service enabled and started")

end prefetch

/-- `domain/types.rs` `ServiceState`. -/
inductive ServiceState where
  | Running
  | Stopped
  | Unknown
deriving DecidableEq, Repr

/-- `domain/types.rs` `StartupMode`. -/
inductive StartupMode where
  | Automatic
  | Manual
  | Disabled
  | Unknown
deriving DecidableEq, Repr

/-- `StartupMode::is_auto`: `matches!(self, Self::Automatic)`. -/
def StartupMode.is_auto : StartupMode → Bool
  | .Automatic => true
  | _ => false

/-- `domain/common.rs` `FileStats` (timestamps modelled as `Nat`). -/
structure FileStats where
  count : Nat
  oldest : Option Nat
  newest : Option Nat
deriving DecidableEq, Repr

/-- `FileStats::empty` (also the `Default` value). -/
def FileStats.empty : FileStats :=
  { count := 0, oldest := none, newest := none }

/-- `domain/types.rs` `PrefetchInfo` (the layered iteration's snapshot:
it carries no prefetcher registry mode). -/
structure PrefetchInfo where
  path : String
  files : FileStats
  accessible : Bool
  error : Option String
  service_state : ServiceState
  startup_mode : StartupMode
deriving DecidableEq, Repr

/-- `PrefetchInfo::is_ok`: `self.service_state == ServiceState::Running
&& self.startup_mode.is_auto()`. -/
def PrefetchInfo.is_ok (p : PrefetchInfo) : Bool :=
  decide (p.service_state = .Running) && p.startup_mode.is_auto

namespace system_restore

/-- `services/system_restore.rs` `SR_KEY`. -/
def SR_KEY : String := "SOFTWARE\\Microsoft\\Windows NT\\CurrentVersion\\SystemRestore"

/-- `services/system_restore.rs` `check_registry`:
`read_hklm(SR_KEY, "RPSessionInterval").map(|v| v == 1).unwrap_or(false)`. -/
def check_registry (r : RegReads) : Bool :=
  ((r.hklm SR_KEY "RPSessionInterval").map (fun v => v == 1)).getD false

/-- `domain/types.rs` `SystemRestoreInfo` (layered iteration). -/
structure SystemRestoreInfo where
  enabled : Bool
  method : String
deriving DecidableEq, Repr

/-- `services/system_restore.rs` `get_info`. -/
def get_info (r : RegReads) : SystemRestoreInfo :=
  { enabled := check_registry r, method := "Registry" }

end system_restore

/-- A directory entry as the scanners consume it: the file-name
extension (as characters, `none` if the path has no extension) and the
modification time (`none` when metadata or the modified time is
unavailable). -/
structure DirEntry where
  ext : Option (List Char)
  modified : Option Nat
deriving DecidableEq, Repr

/-- `char::to_ascii_lowercase`. -/
def to_ascii_lowercase (c : Char) : Char :=
  if 'A' ≤ c ∧ c ≤ 'Z' then Char.ofNat (c.toNat + 32) else c

/-- `eq_ignore_ascii_case` on the two extension strings: equal length and
pointwise equal after ASCII lowercasing. -/
def eq_ignore_ascii_case (a b : List Char) : Bool :=
  (a.map to_ascii_lowercase) == (b.map to_ascii_lowercase)

/-- File-system environment for one scanned path: whether `path.exists()`
holds, and the outcome of `read_dir` — an error message, or the entry
results it yields (each entry itself a `Result`, skipped on error by
`filter_map(|e| e.ok())`). -/
structure FsEnv where
  path_exists : Bool
  read_dir : Except String (List (Except String DirEntry))

/-- The matching modification times a scan folds over: entries that read
successfully, whose extension matches case-insensitively, and whose
modified time is available. -/
def matching_times (entries : List (Except String DirEntry)) (extension : List Char) : List Nat :=
  ((entries.filterMap (fun e => e.toOption)).filter
      (fun e =>
        match e.ext with
        | some x => eq_ignore_ascii_case x extension
        | none => false)).filterMap
    (fun e => e.modified)

/-- The shared single-pass fold of both scanners:
`(count + 1, Some(min(oldest, time)), Some(max(newest, time)))`. -/
def scan_fold_step (acc : Nat × Option Nat × Option Nat) (time : Nat) :
    Nat × Option Nat × Option Nat :=
  match acc with
  | (count, oldest, newest) =>
    (count + 1,
     some (match oldest with | some old => min old time | none => time),
     some (match newest with | some nw => max nw time | none => time))

/-- The fold over all matching modification times, started at
`(0, None, None)`. -/
def scan_fold (times : List Nat) : Nat × Option Nat × Option Nat :=
  times.foldl scan_fold_step (0, none, none)

namespace file_system

/-- `repositories/file_system.rs` `scan_folder`: default stats when the
path does not exist, an `AppError::FileSystem` when `read_dir` fails,
otherwise the single-pass fold over matching entries. -/
def scan_folder (env : FsEnv) (extension : List Char) : Except AppError FileStats :=
  if !env.path_exists then
    .ok FileStats.empty
  else
    match env.read_dir with
    | .error e => .error (.FileSystem e)
    | .ok entries =>
      match scan_fold (matching_times entries extension) with
      | (count, oldest, newest) => .ok { count := count, oldest := oldest, newest := newest }

end file_system

end svc

namespace dom

/-- `domain.rs` `RegistryLocation`. -/
inductive RegistryLocation where
  | HKCU
  | HKLM
  | Both
deriving DecidableEq, Repr

/-- `domain.rs` `CheckSeverity`. -/
inductive CheckSeverity where
  | Minor
  | Important
  | Critical
deriving DecidableEq, Repr

/-- `domain.rs` `RecentCheck`. -/
structure RecentCheck where
  source : String
  location : RegistryLocation
  key_path : String
  value_name : String
  current_value : Option Nat
  expected_for_enabled : Nat
  severity : CheckSeverity
  is_policy : Bool
deriving DecidableEq, Repr

/-- `RecentCheck::is_enabled`:
`self.current_value == Some(self.expected_for_enabled)`. -/
def RecentCheck.is_enabled (c : RecentCheck) : Bool :=
  c.current_value == some c.expected_for_enabled

/-- `RecentCheck::is_blocking`: `!self.is_enabled()`. -/
def RecentCheck.is_blocking (c : RecentCheck) : Bool :=
  !c.is_enabled

/-- `RecentCheck::is_policy_block`: `self.is_policy && self.is_blocking()`. -/
def RecentCheck.is_policy_block (c : RecentCheck) : Bool :=
  c.is_policy && c.is_blocking

/-- `domain.rs` `RecentStatus`, with the payload lists. -/
inductive RecentStatus where
  | FullyEnabled
  | FullyDisabled
  | PartiallyEnabled (enabled_features disabled_features : List String)
  | DisabledByPolicy (policy_sources : List String)
deriving DecidableEq, Repr

/-- Forgetful view of `dom.RecentStatus` as a `StatusKind`. -/
def RecentStatus.kind : RecentStatus → StatusKind
  | .FullyEnabled => .FullyEnabled
  | .FullyDisabled => .FullyDisabled
  | .PartiallyEnabled _ _ => .PartiallyEnabled
  | .DisabledByPolicy _ => .DisabledByPolicy

/-- View of a `dom.RecentCheck` as the data consumed by the
specification's classification algorithm. -/
def RecentCheck.view (c : RecentCheck) : CheckView :=
  { is_ok := c.is_enabled
    important := c.severity == .Important
    is_policy := c.is_policy }

/-- `recent.rs` `get_all_recent_checks`: the static nine-check catalog,
ordered Critical → Important → Minor. -/
def get_all_recent_checks : List RecentCheck :=
  [ { source := "Group Policy: Не сохранять историю недавних документов"
      location := .HKCU
      key_path := "Software\\Microsoft\\Windows\\CurrentVersion\\Policies\\Explorer"
      value_name := "NoRecentDocsHistory"
      current_value := none, expected_for_enabled := 0
      severity := .Critical, is_policy := true }
  , { source := "Group Policy (Machine): Не сохранять историю недавних документов"
      location := .HKLM
      key_path := "Software\\Microsoft\\Windows\\CurrentVersion\\Policies\\Explorer"
      value_name := "NoRecentDocsHistory"
      current_value := none, expected_for_enabled := 0
      severity := .Critical, is_policy := true }
  , { source := "Group Policy: Очищать историю недавних документов при выходе"
      location := .HKCU
      key_path := "Software\\Microsoft\\Windows\\CurrentVersion\\Policies\\Explorer"
      value_name := "ClearRecentDocsOnExit"
      current_value := none, expected_for_enabled := 0
      severity := .Critical, is_policy := true }
  , { source := "Отслеживание открытых документов"
      location := .HKCU
      key_path := "Software\\Microsoft\\Windows\\CurrentVersion\\Explorer\\Advanced"
      value_name := "Start_TrackDocs"
      current_value := none, expected_for_enabled := 1
      severity := .Important, is_policy := false }
  , { source := "Отслеживание запуска программ"
      location := .HKCU
      key_path := "Software\\Microsoft\\Windows\\CurrentVersion\\Explorer\\Advanced"
      value_name := "Start_TrackProgs"
      current_value := none, expected_for_enabled := 1
      severity := .Important, is_policy := false }
  , { source := "Показывать недавние элементы в меню Пуск"
      location := .HKCU
      key_path := "Software\\Microsoft\\Windows\\CurrentVersion\\Explorer"
      value_name := "ShowRecent"
      current_value := none, expected_for_enabled := 1
      severity := .Minor, is_policy := false }
  , { source := "Показывать часто используемые элементы"
      location := .HKCU
      key_path := "Software\\Microsoft\\Windows\\CurrentVersion\\Explorer"
      value_name := "ShowFrequent"
      current_value := none, expected_for_enabled := 1
      severity := .Minor, is_policy := false }
  , { source := "Недавние файлы в диалогах открытия (NoFileMru)"
      location := .HKCU
      key_path := "Software\\Microsoft\\Windows\\CurrentVersion\\Policies\\Comdlg32"
      value_name := "NoFileMru"
      current_value := none, expected_for_enabled := 0
      severity := .Minor, is_policy := false }
  , { source := "Недавние папки в диалогах открытия (NoPlacesBar)"
      location := .HKCU
      key_path := "Software\\Microsoft\\Windows\\CurrentVersion\\Policies\\Comdlg32"
      value_name := "NoPlacesBar"
      current_value := none, expected_for_enabled := 0
      severity := .Minor, is_policy := false }
  ]

/-- `recent.rs` `read_registry_check`: populate `current_value` from the
check's hive; for scope `Both`, HKLM is read first and HKCU is used only
when HKLM has no value (`.or_else`). -/
def read_registry_check (r : RegReads) (c : RecentCheck) : RecentCheck :=
  let value :=
    match c.location with
    | .HKCU => r.hkcu c.key_path c.value_name
    | .HKLM => r.hklm c.key_path c.value_name
    | .Both =>
      match r.hklm c.key_path c.value_name with
      | some v => some v
      | none => r.hkcu c.key_path c.value_name
  { c with current_value := value }

/-- The classification section of `recent.rs` `get_recent_status`
(lines after the registry reads), as a function of the populated check
list. -/
def get_recent_status_core (checks : List RecentCheck) : RecentStatus :=
  let policy_blocks := checks.filter (fun c => c.is_policy && c.is_blocking)
  if !policy_blocks.isEmpty then
    .DisabledByPolicy (policy_blocks.map (fun c => c.source))
  else
    let critical_checks := checks.filter (fun c => c.severity == .Critical)
    let important_checks := checks.filter (fun c => c.severity == .Important)
    let critical_failed := (critical_checks.filter (fun c => c.is_blocking)).length
    let important_failed := (important_checks.filter (fun c => c.is_blocking)).length
    let important_total := important_checks.length
    if critical_failed > 0 || important_failed == important_total then
      .FullyDisabled
    else if important_failed > 0 || checks.any (fun c => c.is_blocking) then
      .PartiallyEnabled
        ((checks.filter (fun c => c.is_enabled)).map (fun c => c.source))
        ((checks.filter (fun c => c.is_blocking)).map (fun c => c.source))
    else
      .FullyEnabled

/-- `recent.rs` `get_recent_status`: the catalog populated by
`read_registry_check`, then classified. -/
def get_recent_status (r : RegReads) : RecentStatus :=
  get_recent_status_core (get_all_recent_checks.map (read_registry_check r))

/-- `domain.rs` `OperationResult`. -/
structure OperationResult where
  success : Bool
  message : String
  details : Option String
  requires_restart : Bool
  requires_admin : Bool
deriving DecidableEq, Repr

/-- `OperationResult::success` constructor (renamed: `success` is the
field accessor in Lean). -/
def OperationResult.success_result (message : String) : OperationResult :=
  { success := true, message := message, details := none
    requires_restart := false, requires_admin := false }

/-- `OperationResult::failure` constructor. -/
def OperationResult.failure_result (message : String) : OperationResult :=
  { success := false, message := message, details := none
    requires_restart := false, requires_admin := false }

/-- `OperationResult::requires_admin` builder method (renamed:
`requires_admin` is the field accessor in Lean). -/
def OperationResult.with_requires_admin (r : OperationResult) : OperationResult :=
  { r with requires_admin := true }

/-- Environment for `recent.rs` `enable_recent`: the registry contents
consulted by `read_registry_check` for skipped policy checks, and the
outcome of each `write_registry_dword(hive, key, value, ..)` call. -/
structure RecentEnableEnv where
  reads : RegReads
  writeOk : Hive → String → String → Bool

/-- A registry write attempted by `enable_recent`:
(hive, key path, value name). -/
abbrev RegWrite := Hive × String × String

/-- Final state of `recent.rs` `enable_recent`: the produced
`OperationResult`, the attempted writes in order, and the source's
`fixed_count` / `failed_count` / `policy_blocked` counters. -/
structure RecentEnableOut where
  res : OperationResult
  writes : List RegWrite
  fixed_count : Nat
  failed_count : Nat
  policy_blocked : Nat
deriving Repr

/-- Loop body of `enable_recent` for one check, threading
(fixed_count, failed_count, policy_blocked, writes): HKLM-scoped policy
checks are skipped — their current value is re-read and, when blocking,
counted in `policy_blocked`; every other check's expected value is
written to its hive (`Both` preferring HKCU). -/
def enable_recent_step (env : RecentEnableEnv)
    (acc : Nat × Nat × Nat × List RegWrite) (check : RecentCheck) :
    Nat × Nat × Nat × List RegWrite :=
  match acc with
  | (fixed_count, failed_count, policy_blocked, writes) =>
    if check.is_policy && check.location == .HKLM then
      let current := read_registry_check env.reads check
      (fixed_count, failed_count,
       if current.is_blocking then policy_blocked + 1 else policy_blocked, writes)
    else
      let hive :=
        match check.location with
        | .HKCU => Hive.HKCU
        | .HKLM => Hive.HKLM
        | .Both => Hive.HKCU
      let writes := writes ++ [(hive, check.key_path, check.value_name)]
      let ok := env.writeOk hive check.key_path check.value_name
      (if ok then fixed_count + 1 else fixed_count,
       if ok then failed_count else failed_count + 1,
       policy_blocked, writes)

/-- Result assembly at the end of `enable_recent`: a three-counter
failure message when any policy check was blocked, a two-counter failure
message when only writes failed, and a success message otherwise. -/
def enable_recent_finalize (fixed_count failed_count policy_blocked : Nat)
    (writes : List RegWrite) : RecentEnableOut :=
  let res :=
    if policy_blocked > 0 then
      OperationResult.failure_result
        ("Включено " ++ toString fixed_count ++ " настроек, "
          ++ toString policy_blocked ++ " заблокировано политикой, "
          ++ toString failed_count ++ " ошибок")
    else if failed_count > 0 then
      OperationResult.failure_result
        ("Включено " ++ toString fixed_count ++ " настроек, "
          ++ toString failed_count ++ " ошибок")
    else
      OperationResult.success_result
        ("Успешно включено " ++ toString fixed_count ++ " настроек Recent Files")
  { res := res, writes := writes, fixed_count := fixed_count
    failed_count := failed_count, policy_blocked := policy_blocked }

/-- `recent.rs` `enable_recent` (the remediation operation).  The source
returns `Ok(..)` unconditionally; the `Result` wrapper is omitted. -/
def enable_recent (env : RecentEnableEnv) : RecentEnableOut :=
  match get_all_recent_checks.foldl (enable_recent_step env) (0, 0, 0, []) with
  | (fixed_count, failed_count, policy_blocked, writes) =>
    enable_recent_finalize fixed_count failed_count policy_blocked writes

/-- `domain.rs` `PrefetcherMode`. -/
inductive PrefetcherMode where
  | Disabled
  | BootOnly
  | ApplicationsOnly
  | FullyEnabled
  | Unknown (v : Nat)
deriving DecidableEq, Repr

/-- `PrefetcherMode::from_registry_value`. -/
def PrefetcherMode.from_registry_value (value : Nat) : PrefetcherMode :=
  match value with
  | 0 => .Disabled
  | 1 => .BootOnly
  | 2 => .ApplicationsOnly
  | 3 => .FullyEnabled
  | v => .Unknown v

/-- `PrefetcherMode::is_enabled`: `!matches!(self, Disabled)`. -/
def PrefetcherMode.is_enabled : PrefetcherMode → Bool
  | .Disabled => false
  | _ => true

/-- `domain.rs` `ServiceStatus`. -/
inductive ServiceStatus where
  | Running
  | Stopped
  | Paused
  | StartPending
  | StopPending
  | Unknown
  | NotFound
deriving DecidableEq, Repr

/-- `ServiceStatus::is_running`: `matches!(self, Running)`. -/
def ServiceStatus.is_running : ServiceStatus → Bool
  | .Running => true
  | _ => false

/-- `domain.rs` `StartupType`. -/
inductive StartupType where
  | Automatic
  | AutomaticDelayed
  | Manual
  | Disabled
  | Unknown
deriving DecidableEq, Repr

/-- `StartupType::is_auto`: `matches!(self, Automatic | AutomaticDelayed)`. -/
def StartupType.is_auto : StartupType → Bool
  | .Automatic => true
  | .AutomaticDelayed => true
  | _ => false

/-- `domain.rs` `PrefetchInfo` (timestamps as `Nat`). -/
structure PrefetchInfo where
  path : String
  pf_count : Nat
  oldest_time : Option Nat
  newest_time : Option Nat
  folder_accessible : Bool
  requires_admin : Bool
  error_message : Option String
deriving DecidableEq, Repr

/-- `domain.rs` `SysMainInfo`. -/
structure SysMainInfo where
  service_status : ServiceStatus
  startup_type : StartupType
  prefetcher_mode : PrefetcherMode
  superfetch_mode : PrefetcherMode
  prefetch_info : PrefetchInfo
deriving DecidableEq, Repr

/-- `SysMainInfo::is_fully_enabled`: service running AND startup auto AND
prefetcher mode enabled. -/
def SysMainInfo.is_fully_enabled (s : SysMainInfo) : Bool :=
  s.service_status.is_running && s.startup_type.is_auto && s.prefetcher_mode.is_enabled

/-- Error kind of a failed `read_dir` in `sysmain.rs`
`scan_prefetch_directory` (`ErrorKind::PermissionDenied` is
special-cased). -/
inductive IoErrorKind where
  | PermissionDenied
  | OtherError (msg : String)
deriving DecidableEq, Repr

/-- File-system environment for `scan_prefetch_directory`. -/
structure PrefetchFsEnv where
  path_exists : Bool
  read_dir : Except IoErrorKind (List (Except String svc.DirEntry))

/-- The six-component return value of `scan_prefetch_directory`:
(count, oldest_time, newest_time, accessible, requires_admin,
error_message). -/
structure ScanOutcome where
  count : Nat
  oldest : Option Nat
  newest : Option Nat
  accessible : Bool
  requires_admin : Bool
  error_message : Option String
deriving DecidableEq, Repr

/-- `sysmain.rs` `scan_prefetch_directory`: missing path and unreadable
directory produce zero stats with an error message (permission denial
additionally setting `requires_admin`); otherwise a single-pass fold over
the `.pf`-matching entries. -/
def scan_prefetch_directory (env : PrefetchFsEnv) : ScanOutcome :=
  if !env.path_exists then
    { count := 0, oldest := none, newest := none, accessible := false
      requires_admin := false, error_message := some "Папка Prefetch не существует" }
  else
    match env.read_dir with
    | .error .PermissionDenied =>
      { count := 0, oldest := none, newest := none, accessible := false
        requires_admin := true
        error_message :=
          some "Нет доступа к папке Prefetch. Запустите с правами администратора." }
    | .error (.OtherError msg) =>
      { count := 0, oldest := none, newest := none, accessible := false
        requires_admin := false
        error_message := some ("Ошибка чтения папки Prefetch: " ++ msg) }
    | .ok entries =>
      match svc.scan_fold (svc.matching_times entries "pf".toList) with
      | (count, oldest, newest) =>
        { count := count, oldest := oldest, newest := newest, accessible := true
          requires_admin := false, error_message := none }

/-- `ERROR_SERVICE_ALREADY_RUNNING` (Win32 error 1056). -/
def ERROR_SERVICE_ALREADY_RUNNING : Nat := 1056

/-- Outcomes of the primitive SCM calls made by `sysmain.rs`
`enable_sysmain`: whether `OpenSCManagerW(SC_MANAGER_ALL_ACCESS)` and
`OpenServiceW` yield usable handles, whether `ChangeServiceConfigW`
succeeds, and the outcome of `StartServiceW` — `none` on success, or the
OS error's (code, display text). -/
structure ScmEnv where
  scmOk : Bool
  openOk : Bool
  changeOk : Bool
  startErr : Option (Nat × String)

/-- The SCM mutation-path calls recorded while running `enable_sysmain`. -/
inductive ScmCall where
  | OpenSCM
  | OpenService
  | ChangeServiceConfig
  | StartService
deriving DecidableEq, Repr

/-- `sysmain.rs` `start_service`: a failed `StartServiceW` whose error
code is `ERROR_SERVICE_ALREADY_RUNNING` is treated as success; any other
failure is an error. -/
def start_service (startErr : Option (Nat × String)) : Except String Unit :=
  match startErr with
  | none => .ok ()
  | some (code, text) =>
    if code != ERROR_SERVICE_ALREADY_RUNNING then
      .error ("Failed to start service: " ++ text)
    else
      .ok ()

/-- `sysmain.rs` `enable_sysmain`, returning the produced
`OperationResult` together with the ordered list of SCM calls it issued.
The source returns `Ok(..)` on every path; the `Result` wrapper is
omitted. -/
def enable_sysmain (e : ScmEnv) : OperationResult × List ScmCall :=
  if !e.scmOk then
    ((OperationResult.failure_result
        "Не удалось открыть Service Control Manager. Требуются права администратора.").with_requires_admin,
     [.OpenSCM])
  else if !e.openOk then
    ((OperationResult.failure_result
        "Не удалось открыть службу SysMain. Требуются права администратора.").with_requires_admin,
     [.OpenSCM, .OpenService])
  else if !e.changeOk then
    (OperationResult.failure_result
       ("Не удалось изменить тип запуска службы: " ++ "Failed to change service configuration"),
     [.OpenSCM, .OpenService, .ChangeServiceConfig])
  else
    match start_service e.startErr with
    | .error msg =>
      (OperationResult.failure_result ("Не удалось запустить службу: " ++ msg),
       [.OpenSCM, .OpenService, .ChangeServiceConfig, .StartService])
    | .ok () =>
      (OperationResult.success_result "Служба SysMain успешно включена и запущена!",
       [.OpenSCM, .OpenService, .ChangeServiceConfig, .StartService])

/-- Registry environment for `system_restore.rs`
`is_system_restore_globally_enabled`: whether the `SystemRestore` key
opens, and the DWORD values under it. -/
structure SRKeyEnv where
  key_opens : Bool
  get : String → Option Nat

/-- `system_restore.rs` `is_system_restore_globally_enabled`: `false`
when the key does not open or the `DisableSR` kill-switch (defaulted to
0) equals 1; otherwise `RPSessionInterval` (defaulted to 0) must equal 1.
The source returns `Result<bool>` but never errors. -/
def is_system_restore_globally_enabled (k : SRKeyEnv) : Bool :=
  if k.key_opens then
    if (k.get "DisableSR").getD 0 == 1 then
      false
    else
      (k.get "RPSessionInterval").getD 0 == 1
  else
    false

/-- `domain.rs` `SystemRestoreMethod`. -/
inductive SystemRestoreMethod where
  | Wmi
  | Native
  | PowerShell
  | RegistryOnly
deriving DecidableEq, Repr

/-- Environment for `system_restore.rs` `enable_system_restore`: whether
the PowerShell provider is available, and the outcome of its `enable`
call (`none` on success, or the error's display text). -/
structure SREnv where
  psAvailable : Bool
  psEnableErr : Option String

/-- `system_restore.rs` `get_enable_provider`: the first available
provider whose method is not `RegistryOnly` — the PowerShell provider
when available, otherwise none. -/
def get_enable_provider (e : SREnv) : Option SystemRestoreMethod :=
  if e.psAvailable then some .PowerShell else none

/-- `system_restore.rs` `enable_system_restore`, returning the produced
`OperationResult` together with a flag recording whether
`provider.enable(drive)` was invoked.  The source performs no elevation
check: as soon as a usable provider exists, `provider.enable(drive)` is
called unconditionally (second component `true`), and only its failure
is then mapped to a failed result with `requires_admin` set.  No usable
provider is a plain failure with no call made.  The source returns
`Ok(..)` on every path; the `Result` wrapper is omitted. -/
def enable_system_restore (e : SREnv) (drive : String) : OperationResult × Bool :=
  match get_enable_provider e with
  | none =>
    (OperationResult.failure_result "Нет доступных методов для включения System Restore",
     false)
  | some _method =>
    match e.psEnableErr with
    | none =>
      (OperationResult.success_result
        ("System Restore успешно включена на диске " ++ drive ++ " (метод: PowerShell)"),
       true)
    | some err =>
      ((OperationResult.failure_result
        ("Не удалось включить System Restore: " ++ err)).with_requires_admin,
       true)

end dom

/-! ### Concrete environments and inputs used by the counterexamples and
witnesses below. -/

/-- A two-check list with populated current values: a failing non-policy
Critical check together with a passing Important check. -/
def c1_cex : List dom.RecentCheck :=
  [ { source := "critical non-policy", location := .HKCU, key_path := "k", value_name := "v"
      current_value := some 5, expected_for_enabled := 0
      severity := .Critical, is_policy := false }
  , { source := "important passing", location := .HKCU, key_path := "k", value_name := "v2"
      current_value := some 1, expected_for_enabled := 1
      severity := .Important, is_policy := false } ]

/-- A layered-iteration snapshot with the service running and auto-start
configured. -/
def c2_snapshot : svc.PrefetchInfo :=
  { path := "C:\\Windows\\Prefetch", files := svc.FileStats.empty, accessible := true
    error := none, service_state := .Running, startup_mode := .Automatic }

/-- A comprehensive-iteration snapshot: running, automatic, but the
prefetcher registry mode disabled. -/
def c2_dom_snapshot : dom.SysMainInfo :=
  { service_status := .Running, startup_type := .Automatic
    prefetcher_mode := .Disabled, superfetch_mode := .FullyEnabled
    prefetch_info :=
      { path := "C:\\Windows\\Prefetch", pf_count := 0, oldest_time := none
        newest_time := none, folder_accessible := true, requires_admin := false
        error_message := none } }

/-- SCM call outcomes on an elevated machine whose SysMain service is
already running with automatic startup: the handle opens succeed,
re-setting auto-start succeeds, and `StartServiceW` reports
`ERROR_SERVICE_ALREADY_RUNNING`. -/
def c3_env : dom.ScmEnv :=
  { scmOk := true, openOk := true, changeOk := true
    startErr := some (dom.ERROR_SERVICE_ALREADY_RUNNING, "The service is already running.") }

/-- SCM call outcomes without admin rights for the layered iteration:
`OpenSCManagerW(SC_MANAGER_CONNECT)` succeeds, but opening SysMain with
change-config and start rights is denied. -/
def c4_env : svc.ScmCallEnv :=
  { scmErr := none, openErr := some "Access is denied. (os error 5)"
    changeErr := none, startErr := none }

/-- `enable_sysmain` call outcomes without admin rights:
`OpenSCManagerW(SC_MANAGER_ALL_ACCESS)` yields no usable handle. -/
def c4_noadmin_scm : dom.ScmEnv :=
  { scmOk := false, openOk := false, changeOk := false, startErr := none }

/-- System Restore environment without admin rights: PowerShell is
available but its `Enable-ComputerRestore` call fails. -/
def c4_sr_env : dom.SREnv :=
  { psAvailable := true, psEnableErr := some "PowerShell error: access denied" }

/-- A write environment in which every registry write succeeds. -/
def c5_env : svc.WriteEnv :=
  { hkcuOk := fun _ _ => true, hklmOk := fun _ _ => true }

/-- An `enable_recent` environment in which HKLM holds 1 for every value
(so the machine `NoRecentDocsHistory` policy is blocking) and every
write succeeds. -/
def c5_dom_env : dom.RecentEnableEnv :=
  { reads := { hkcu := fun _ _ => none, hklm := fun _ _ => some 1 }
    writeOk := fun _ _ _ => true }

/-- The layered iteration's `NoRecentDocsHistory` policy check. -/
def c6_check : svc.RegistryCheck :=
  { name := "Policy Block", key := svc.recent.POLICY_KEY, value := "NoRecentDocsHistory"
    expected := 0, actual := none, severity := .Critical, is_policy := true }

/-- A registry in which HKCU holds 1 and HKLM holds 0 for every value. -/
def c6_reads : RegReads :=
  { hkcu := fun _ _ => some 1, hklm := fun _ _ => some 0 }

/-- A Both-scoped check of the comprehensive iteration. -/
def c6_both_check : dom.RecentCheck :=
  { source := "both-scoped", location := .Both, key_path := "k", value_name := "v"
    current_value := none, expected_for_enabled := 1
    severity := .Minor, is_policy := false }

/-- A registry whose HKLM `SystemRestore` key holds both
`RPSessionInterval = 1` and the `DisableSR = 1` kill-switch. -/
def c7_reads : RegReads :=
  { hkcu := fun _ _ => none
    hklm := fun _ v =>
      if v = "RPSessionInterval" then some 1
      else if v = "DisableSR" then some 1
      else none }

/-- The same registry state as `c7_reads`, viewed as the `SystemRestore`
key environment of the comprehensive iteration. -/
def c7_key : dom.SRKeyEnv :=
  { key_opens := true
    get := fun v =>
      if v = "RPSessionInterval" then some 1
      else if v = "DisableSR" then some 1
      else none }

/-- A `SystemRestore` key with `RPSessionInterval = 0` and no
`DisableSR` value. -/
def c7_zero_key : dom.SRKeyEnv :=
  { key_opens := true
    get := fun v => if v = "RPSessionInterval" then some 0 else none }

/-- A registry with `RPSessionInterval = 0` under the HKLM
`SystemRestore` key and no other values. -/
def c7_zero_reads : RegReads :=
  { hkcu := fun _ _ => none
    hklm := fun _ v => if v = "RPSessionInterval" then some 0 else none }

/-- SCM call outcomes in which `StartServiceW` fails with an error other
than `ERROR_SERVICE_ALREADY_RUNNING` (access denied, code 5). -/
def c8_env : svc.ScmCallEnv :=
  { scmErr := none, openErr := none, changeErr := none
    startErr := some "Access is denied. (os error 5)" }

/-- A scan environment whose path does not exist. -/
def c9_missing : svc.FsEnv :=
  { path_exists := false, read_dir := .ok [] }

/-- A scan environment with exactly two matching files (extensions "pf"
and "PF", exercising the case-insensitive match) with modification times
3 < 7. -/
def c9_two : svc.FsEnv :=
  { path_exists := true
    read_dir := .ok
      [ .ok { ext := some "pf".toList, modified := some 3 }
      , .ok { ext := some "PF".toList, modified := some 7 } ] }

/-- A Prefetch scan environment whose path does not exist. -/
def c9_dom_missing : dom.PrefetchFsEnv :=
  { path_exists := false, read_dir := .ok [] }

/-! ### Helper lemmas -/

theorem list_any_map {α β : Type} (f : α → β) (p : β → Bool) (l : List α) :
    (l.map f).any p = l.any (fun a => p (f a)) := by
  induction l with
  | nil => rfl
  | cons a t ih => simp [ih]

theorem list_all_map {α β : Type} (f : α → β) (p : β → Bool) (l : List α) :
    (l.map f).all p = l.all (fun a => p (f a)) := by
  induction l with
  | nil => rfl
  | cons a t ih => simp [ih]

theorem list_filter_map {α β : Type} (f : α → β) (p : β → Bool) (l : List α) :
    (l.map f).filter p = (l.filter (fun a => p (f a))).map f := by
  induction l with
  | nil => rfl
  | cons a t ih =>
    by_cases h : p (f a) <;> simp [List.filter, h, ih]

theorem list_any_eq {α : Type} (p : α → Bool) (l : List α) :
    l.any p = true ↔ ∃ a ∈ l, p a = true := by
  induction l with
  | nil => simp
  | cons a t ih => simp [List.any_cons, ih]

theorem list_all_eq {α : Type} (p : α → Bool) (l : List α) :
    l.all p = true ↔ ∀ a ∈ l, p a = true := by
  induction l with
  | nil => simp
  | cons a t ih => simp [List.all_cons, ih]

theorem list_filter_isEmpty {α : Type} (p : α → Bool) (l : List α) :
    (l.filter p).isEmpty = !(l.any p) := by
  induction l with
  | nil => rfl
  | cons a t ih =>
    by_cases h : p a <;> simp [List.filter, h, ih]

theorem list_length_filter_eq_iff {α : Type} (p : α → Bool) (l : List α) :
    ((l.filter p).length = l.length ↔ ∀ a ∈ l, p a) := by
  constructor
  · intro h a ha
    by_contra hc
    have := List.length_filter_lt_length_iff_exists.mpr ⟨a, ha, by simpa using hc⟩
    omega
  · intro h
    congr 1
    exact List.filter_eq_self.mpr h

theorem scan_fold_go_count (ts : List Nat) :
    ∀ acc : Nat × Option Nat × Option Nat,
      (ts.foldl svc.scan_fold_step acc).1 = acc.1 + ts.length := by
  induction ts with
  | nil => intro acc; simp
  | cons t ts ih =>
    intro acc
    rcases acc with ⟨c, o, n⟩
    simp only [List.foldl_cons, List.length_cons]
    rw [ih]
    simp [svc.scan_fold_step]
    omega

/-- The ordering invariant preserved by `scan_fold_step`: the oldest and
newest slots are both absent or both present and ordered. -/
def scan_acc_ordered : Nat × Option Nat × Option Nat → Prop
  | (_, some a, some b) => a ≤ b
  | (_, none, none) => True
  | _ => False

theorem scan_fold_go_ordered (ts : List Nat) :
    ∀ acc : Nat × Option Nat × Option Nat,
      scan_acc_ordered acc → scan_acc_ordered (ts.foldl svc.scan_fold_step acc) := by
  induction ts with
  | nil => intro acc h; simpa using h
  | cons t ts ih =>
    intro acc h
    rcases acc with ⟨c, o, n⟩
    simp only [List.foldl_cons]
    apply ih
    match o, n, h with
    | some a, some b, h =>
      simp only [svc.scan_fold_step, scan_acc_ordered]
      exact le_trans (le_trans (min_le_left a t) h) (le_max_left b t)
    | none, none, _ =>
      simp [svc.scan_fold_step, scan_acc_ordered]

theorem scan_fold_count (ts : List Nat) : (svc.scan_fold ts).1 = ts.length := by
  unfold svc.scan_fold
  rw [scan_fold_go_count]
  simp

theorem scan_fold_ordered (ts : List Nat) : scan_acc_ordered (svc.scan_fold ts) := by
  unfold svc.scan_fold
  exact scan_fold_go_ordered ts (0, none, none) trivial

/-! ### Claims -/

/-- C2 (amended): `SysMainInfo::is_fully_enabled` is true iff all three
of {service running, startup auto, prefetcher mode enabled} hold, and
flipping any one of the three to false makes it false.  The layered
iteration's `PrefetchInfo::is_ok`, however, ANDs only the first two
conditions — its snapshot carries no prefetcher registry mode, so that
condition cannot affect it. -/
theorem C2_sysmain_aggregate :
    (∀ s : dom.SysMainInfo,
        s.is_fully_enabled = true ↔
          (s.service_status.is_running = true ∧ s.startup_type.is_auto = true ∧
            s.prefetcher_mode.is_enabled = true))
    ∧ (∀ s : dom.SysMainInfo, s.service_status.is_running = false → s.is_fully_enabled = false)
    ∧ (∀ s : dom.SysMainInfo, s.startup_type.is_auto = false → s.is_fully_enabled = false)
    ∧ (∀ s : dom.SysMainInfo, s.prefetcher_mode.is_enabled = false → s.is_fully_enabled = false)
    ∧ (∀ p : svc.PrefetchInfo,
        p.is_ok = true ↔ (p.service_state = .Running ∧ p.startup_mode.is_auto = true)) := by
  refine ⟨?_, ?_, ?_, ?_, ?_⟩
  · intro s
    simp [dom.SysMainInfo.is_fully_enabled, Bool.and_eq_true, and_assoc]
  · intro s h
    simp [dom.SysMainInfo.is_fully_enabled, h]
  · intro s h
    simp [dom.SysMainInfo.is_fully_enabled, h]
  · intro s h
    simp [dom.SysMainInfo.is_fully_enabled, h]
  · intro p
    simp [svc.PrefetchInfo.is_ok, Bool.and_eq_true, decide_eq_true_iff]

/-- C2 witness: at the concrete snapshot with a disabled prefetcher mode,
the flip clause applies and the aggregate is false. -/
theorem C2_sysmain_aggregate_witness :
    dom.PrefetcherMode.is_enabled c2_dom_snapshot.prefetcher_mode = false ∧
      c2_dom_snapshot.is_fully_enabled = false :=
  ⟨rfl, C2_sysmain_aggregate.2.2.2.1 c2_dom_snapshot rfl⟩

/-- C2 counterexample: the claim's three-condition iff is false for the
layered iteration's `is_ok`.  `c2_snapshot` is the snapshot taken on a
machine whose prefetcher registry mode is `Disabled`: `is_ok` is
nevertheless true, because `PrefetchInfo` carries no prefetcher mode and
`is_ok` tests only the service state and the startup mode. -/
theorem C2_sysmain_aggregate_counterexample :
    ¬ (c2_snapshot.is_ok = true ↔
        (c2_snapshot.service_state = .Running ∧ c2_snapshot.startup_mode.is_auto = true ∧
          dom.PrefetcherMode.is_enabled .Disabled = true)) := by
  decide

/-- C3 (amended): when the SysMain service is already running with
automatic startup and the caller has admin rights (handles open, the
auto-start reconfiguration succeeds, and `StartServiceW` reports
`ERROR_SERVICE_ALREADY_RUNNING`), `enable_sysmain` returns a success
result — but it is not a no-op: it unconditionally invokes
`ChangeServiceConfig` and `StartService`, and the "already running"
start error is special-cased to success after the fact.  There is no
pre-mutation short-circuit. -/
theorem C3_enable_already_running :
    ∀ (e : dom.ScmEnv) (text : String),
      e.scmOk = true → e.openOk = true → e.changeOk = true →
      e.startErr = some (dom.ERROR_SERVICE_ALREADY_RUNNING, text) →
      (dom.enable_sysmain e).1 =
          dom.OperationResult.success_result "Служба SysMain успешно включена и запущена!"
        ∧ (dom.enable_sysmain e).2 =
            [.OpenSCM, .OpenService, .ChangeServiceConfig, .StartService] := by
  intro e text h1 h2 h3 h4
  simp [dom.enable_sysmain, h1, h2, h3, h4, dom.start_service]

/-- C3 witness: the amended claim at the concrete already-running
environment `c3_env`. -/
theorem C3_enable_already_running_witness :
    (dom.enable_sysmain c3_env).1 =
        dom.OperationResult.success_result "Служба SysMain успешно включена и запущена!"
      ∧ (dom.enable_sysmain c3_env).2 =
          [.OpenSCM, .OpenService, .ChangeServiceConfig, .StartService] :=
  C3_enable_already_running c3_env "The service is already running." rfl rfl rfl rfl

/-- C3 counterexample: on `c3_env` — the call outcomes of an elevated
run against a service already running with automatic startup — the claim
says enable succeeds *without invoking `ChangeServiceConfig` or
`StartService`*; in fact both calls appear in the trace (the result is
still a success). -/
theorem C3_enable_already_running_counterexample :
    (dom.enable_sysmain c3_env).1.success = true
      ∧ dom.ScmCall.ChangeServiceConfig ∈ (dom.enable_sysmain c3_env).2
      ∧ dom.ScmCall.StartService ∈ (dom.enable_sysmain c3_env).2 := by
  decide

/-- C6 (amended): in the comprehensive iteration's
`read_registry_check`, a Both-scoped check does consult HKLM first and a
present HKLM value takes precedence over HKCU.  In the layered
iteration's `get_info` read loop, however, HKCU is read first and HKLM is
consulted only when the HKCU value is absent or already equal to the
expected value — so an unexpected HKCU value wins over HKLM. -/
theorem C6_hklm_precedence :
    (∀ (r : RegReads) (c : dom.RecentCheck) (v : Nat), c.location = .Both →
        r.hklm c.key_path c.value_name = some v →
        (dom.read_registry_check r c).current_value = some v)
    ∧ (∀ (r : RegReads) (c : svc.RegistryCheck) (w : Nat), c.is_policy = true →
        r.hkcu c.key c.value = some w → w ≠ c.expected →
        (svc.recent.read_check r c).actual = some w) := by
  constructor
  · intro r c v h1 h2
    simp [dom.read_registry_check, h1, h2]
  · intro r c w h1 h2 h3
    simp [svc.recent.read_check, h1, h2, h3]

/-- C6 witness: the amended claim at a concrete Both-scoped check
(|HKLM| = 0 wins) and at the concrete layered policy check (HKCU's
unexpected 1 wins). -/
theorem C6_hklm_precedence_witness :
    (dom.read_registry_check c6_reads c6_both_check).current_value = some 0
      ∧ (svc.recent.read_check c6_reads c6_check).actual = some 1 :=
  ⟨C6_hklm_precedence.1 c6_reads c6_both_check 0 rfl rfl,
   C6_hklm_precedence.2 c6_reads c6_check 1 rfl rfl (by decide)⟩

/-- C6 counterexample: for the layered iteration's `NoRecentDocsHistory`
policy check — which is read from both hives — with HKCU holding 1 and
HKLM holding 0, the populated value is the HKCU value, not the HKLM
value, although the two hives differ. -/
theorem C6_hklm_precedence_counterexample :
    c6_reads.hklm c6_check.key c6_check.value = some 0
      ∧ c6_reads.hkcu c6_check.key c6_check.value = some 1
      ∧ (svc.recent.read_check c6_reads c6_check).actual = some 1
      ∧ (svc.recent.read_check c6_reads c6_check).actual ≠
          c6_reads.hklm c6_check.key c6_check.value := by
  refine ⟨rfl, rfl, rfl, ?_⟩
  decide

/-- C7 (amended): the comprehensive iteration's
`is_system_restore_globally_enabled` is true iff the `SystemRestore` key
opens, the `DisableSR` kill-switch (defaulted to 0) is not 1, and
`RPSessionInterval` (defaulted to 0) equals 1; and on every registry
state with `RPSessionInterval = 0` the flag is false.  The layered
iteration's `check_registry` (used by its `get_info`) tests only
`RPSessionInterval == 1` and never consults `DisableSR`. -/
theorem C7_global_enabled_flag :
    (∀ k : dom.SRKeyEnv,
        dom.is_system_restore_globally_enabled k = true ↔
          (k.key_opens = true ∧ (k.get "DisableSR").getD 0 ≠ 1 ∧
            (k.get "RPSessionInterval").getD 0 = 1))
    ∧ (∀ r : RegReads,
        svc.system_restore.check_registry r = true ↔
          r.hklm svc.system_restore.SR_KEY "RPSessionInterval" = some 1)
    ∧ (∀ k : dom.SRKeyEnv, k.get "RPSessionInterval" = some 0 →
        dom.is_system_restore_globally_enabled k = false)
    ∧ (∀ r : RegReads, r.hklm svc.system_restore.SR_KEY "RPSessionInterval" = some 0 →
        svc.system_restore.check_registry r = false)
    ∧ (∀ r : RegReads,
        (svc.system_restore.get_info r).enabled = svc.system_restore.check_registry r) := by
  refine ⟨?_, ?_, ?_, ?_, ?_⟩
  · intro k
    unfold dom.is_system_restore_globally_enabled
    by_cases hk : k.key_opens
    · by_cases hd : (k.get "DisableSR").getD 0 = 1 <;> simp [hk, hd]
    · simp [hk]
  · intro r
    unfold svc.system_restore.check_registry
    cases h : r.hklm svc.system_restore.SR_KEY "RPSessionInterval" <;> simp [h]
  · intro k h
    unfold dom.is_system_restore_globally_enabled
    by_cases hk : k.key_opens
    · by_cases hd : (k.get "DisableSR").getD 0 = 1 <;> simp [hk, hd, h]
    · simp [hk]
  · intro r h
    unfold svc.system_restore.check_registry
    simp [h]
  · intro r
    rfl

/-- C7 witness: on the concrete registry state with
`RPSessionInterval = 0` and no `DisableSR`, both iterations report the
global flag false (the claim's second spec sentence). -/
theorem C7_global_enabled_flag_witness :
    dom.is_system_restore_globally_enabled c7_zero_key = false
      ∧ svc.system_restore.check_registry c7_zero_reads = false :=
  ⟨C7_global_enabled_flag.2.2.1 c7_zero_key rfl,
   C7_global_enabled_flag.2.2.2.1 c7_zero_reads rfl⟩

/-- C7 counterexample: on the registry state `c7_reads` / `c7_key` with
both `RPSessionInterval = 1` and `DisableSR = 1`, the claim requires the
flag to be false (the kill-switch is set), and the comprehensive
iteration indeed reports false — but the layered iteration's `get_info`
reports the flag true, because `check_registry` never reads
`DisableSR`. -/
theorem C7_global_enabled_flag_counterexample :
    (c7_reads.hklm svc.system_restore.SR_KEY "DisableSR" = some 1)
      ∧ (svc.system_restore.get_info c7_reads).enabled = true
      ∧ dom.is_system_restore_globally_enabled c7_key = false := by
  refine ⟨?_, ?_, ?_⟩ <;> decide

/-- C8 (amended): the comprehensive iteration's `start_service` treats a
`StartServiceW` failure with code `ERROR_SERVICE_ALREADY_RUNNING` as
success and reports every other failure code as an error; the layered
iteration's `repositories::windows_service::start_service`, however,
discards the result of `StartServiceW` entirely and returns `Ok` for
every outcome. -/
theorem C8_start_already_running :
    (dom.start_service none = .ok ())
    ∧ (∀ text : String,
        dom.start_service (some (dom.ERROR_SERVICE_ALREADY_RUNNING, text)) = .ok ())
    ∧ (∀ (code : Nat) (text : String), code ≠ dom.ERROR_SERVICE_ALREADY_RUNNING →
        dom.start_service (some (code, text)) =
          .error ("Failed to start service: " ++ text))
    ∧ (∀ e : svc.ScmCallEnv, svc.start_service e = .ok ()) := by
  refine ⟨rfl, ?_, ?_, ?_⟩
  · intro text
    simp [dom.start_service]
  · intro code text h
    simp [dom.start_service, h]
  · intro e
    rfl

/-- C8 witness: the amended claim at concrete inputs — code 1056 is
success, code 5 is an error. -/
theorem C8_start_already_running_witness :
    dom.start_service (some (dom.ERROR_SERVICE_ALREADY_RUNNING, "already running")) = .ok ()
      ∧ dom.start_service (some (5, "Access is denied.")) =
          .error ("Failed to start service: " ++ "Access is denied.") :=
  ⟨C8_start_already_running.2.1 "already running",
   C8_start_already_running.2.2.1 5 "Access is denied." (by decide)⟩

/-- C8 counterexample: on `c8_env`, where `StartServiceW` fails with
"access denied" (not the already-running code), the layered iteration's
`start_service` still returns `Ok` — contradicting the claim that every
start failure other than "already running" is reported as an error. -/
theorem C8_start_already_running_counterexample :
    c8_env.startErr = some "Access is denied. (os error 5)"
      ∧ svc.start_service c8_env = .ok () := by
  exact ⟨rfl, rfl⟩

/-- C4 (amended): without admin rights, the comprehensive iteration's
`enable_sysmain` returns a failed `OperationResult` with
`requires_admin = true` and never reaches `ChangeServiceConfig` or
`StartService`.  For System Restore, however, the claim's
"does not attempt the privileged mutation call" does not hold:
`enable_system_restore` performs no elevation check and invokes
`provider.enable(drive)` unconditionally whenever a provider exists —
the privileged call is attempted, and only its failure is then mapped to
a failed `OperationResult` with `requires_admin = true`.  And the
layered iteration's `services::prefetch::enable` propagates the
service-open failure as an `Err(AppError)` rather than returning a
failed `OperationResult`. -/
theorem C4_enable_without_admin :
    (∀ e : dom.ScmEnv, e.scmOk = false →
        (dom.enable_sysmain e).1.success = false
        ∧ (dom.enable_sysmain e).1.requires_admin = true
        ∧ (dom.enable_sysmain e).2 = [.OpenSCM])
    ∧ (∀ e : dom.ScmEnv, e.scmOk = true → e.openOk = false →
        (dom.enable_sysmain e).1.success = false
        ∧ (dom.enable_sysmain e).1.requires_admin = true
        ∧ (dom.enable_sysmain e).2 = [.OpenSCM, .OpenService])
    ∧ (∀ (e : dom.SREnv) (drive : String), e.psAvailable = true →
        (dom.enable_system_restore e drive).2 = true)
    ∧ (∀ (e : dom.SREnv) (drive err : String), e.psAvailable = true →
        e.psEnableErr = some err →
        (dom.enable_system_restore e drive).1.success = false
        ∧ (dom.enable_system_restore e drive).1.requires_admin = true)
    ∧ (∀ (e : svc.ScmCallEnv) (msg : String), e.scmErr = none → e.openErr = some msg →
        svc.prefetch.enable e =
          .error (.Service ("Failed to open service SysMain: " ++ msg))) := by
  refine ⟨?_, ?_, ?_, ?_, ?_⟩
  · intro e h
    simp [dom.enable_sysmain, h, dom.OperationResult.failure_result,
      dom.OperationResult.with_requires_admin]
  · intro e h1 h2
    simp [dom.enable_sysmain, h1, h2, dom.OperationResult.failure_result,
      dom.OperationResult.with_requires_admin]
  · intro e drive h1
    cases h2 : e.psEnableErr <;>
      simp [dom.enable_system_restore, dom.get_enable_provider, h1, h2]
  · intro e drive err h1 h2
    simp [dom.enable_system_restore, dom.get_enable_provider, h1, h2,
      dom.OperationResult.failure_result, dom.OperationResult.with_requires_admin]
  · intro e msg h1 h2
    simp only [svc.prefetch.enable, svc.open_scm, svc.open_service, h1, h2]
    rfl

/-- C4 witness: the amended claim at concrete no-admin environments. -/
theorem C4_enable_without_admin_witness :
    ((dom.enable_sysmain c4_noadmin_scm).1.success = false
      ∧ (dom.enable_sysmain c4_noadmin_scm).1.requires_admin = true
      ∧ (dom.enable_sysmain c4_noadmin_scm).2 = [.OpenSCM])
    ∧ (dom.enable_system_restore c4_sr_env "C:").2 = true
    ∧ ((dom.enable_system_restore c4_sr_env "C:").1.success = false
      ∧ (dom.enable_system_restore c4_sr_env "C:").1.requires_admin = true)
    ∧ svc.prefetch.enable c4_env =
        .error (.Service ("Failed to open service SysMain: " ++ "Access is denied. (os error 5)")) :=
  ⟨C4_enable_without_admin.1 c4_noadmin_scm rfl,
   C4_enable_without_admin.2.2.1 c4_sr_env "C:" rfl,
   C4_enable_without_admin.2.2.2.1 c4_sr_env "C:" "PowerShell error: access denied" rfl rfl,
   C4_enable_without_admin.2.2.2.2 c4_env "Access is denied. (os error 5)" rfl rfl⟩

/-- C4 counterexample, refuting the claim at both points where the code
diverges from it.  First: on `c4_sr_env` — a run without admin rights,
where PowerShell is available and its `Enable-ComputerRestore` call
fails with access denied — `enable_system_restore` *does* attempt the
privileged mutation call (the recorded provider-enable flag is true),
although the claim says the operation "does not attempt the privileged
mutation call".  Second: on `c4_env` — no admin rights, so opening the
SysMain service with mutation rights is denied — the layered iteration's
enable operation returns `Err(AppError::Service(..))`, i.e. it
propagates an error instead of returning the failed `OperationResult`
with `requires_admin = true` that the claim requires. -/
theorem C4_enable_without_admin_counterexample :
    c4_sr_env.psEnableErr = some "PowerShell error: access denied"
      ∧ (dom.enable_system_restore c4_sr_env "C:").2 = true
      ∧ svc.prefetch.enable c4_env =
          .error (.Service "Failed to open service SysMain: Access is denied. (os error 5)") := by
  exact ⟨rfl, rfl, rfl⟩

/-- The result-assembly step of `services/recent.rs` `enable`: the
success flag is always true, `requires_admin` and the appended message
suffix are exactly the `needs_admin` flag. -/
theorem svc_enable_finalize_spec (f : Nat) (na : Bool) (w : List svc.recent.Write) :
    (svc.recent.enable_finalize f na w).res.success = true
    ∧ (svc.recent.enable_finalize f na w).res.requires_admin = na
    ∧ (svc.recent.enable_finalize f na w).res.message =
        (if na then "Enabled " ++ toString f ++ " settings (some policy settings require admin)"
         else "Enabled " ++ toString f ++ " settings")
    ∧ (svc.recent.enable_finalize f na w).fixed = f
    ∧ (svc.recent.enable_finalize f na w).needs_admin = na := by
  cases na <;>
    simp [svc.recent.enable_finalize, svc.OperationResult.success_result,
      svc.OperationResult.with_requires_admin, String.append_assoc]

/-- The `needs_admin` flag computed by the `services/recent.rs` `enable`
loop is set exactly when one of the two HKLM policy writes fails. -/
theorem svc_enable_fold_needs_admin (env : svc.WriteEnv) :
    (svc.recent.build_checks.foldl (svc.recent.enable_step env) (0, false, [])).2.1 =
      (!env.hklmOk svc.recent.POLICY_KEY "NoRecentDocsHistory"
        || !env.hklmOk svc.recent.POLICY_KEY "NoRecentDocsMenu") := by
  simp [svc.recent.build_checks, svc.recent.enable_step]

/-- C10 (confirmed): `services/recent.rs` `enable` returns a result with
`success = true` for every outcome of the underlying registry writes;
the `requires_admin` flag equals the `needs_admin` flag, which is set
exactly by a failed HKLM policy write, and a set flag only appends the
admin note to the message. -/
theorem C10_recent_enable_always_success :
    ∀ env : svc.WriteEnv,
      (svc.recent.enable env).res.success = true
      ∧ (svc.recent.enable env).res.requires_admin = (svc.recent.enable env).needs_admin
      ∧ (svc.recent.enable env).needs_admin =
          (!env.hklmOk svc.recent.POLICY_KEY "NoRecentDocsHistory"
            || !env.hklmOk svc.recent.POLICY_KEY "NoRecentDocsMenu")
      ∧ (svc.recent.enable env).res.message =
          (if (svc.recent.enable env).needs_admin then
            "Enabled " ++ toString (svc.recent.enable env).fixed
              ++ " settings (some policy settings require admin)"
          else
            "Enabled " ++ toString (svc.recent.enable env).fixed ++ " settings") := by
  intro env
  have hna := svc_enable_fold_needs_admin env
  rcases hfold : svc.recent.build_checks.foldl (svc.recent.enable_step env) (0, false, [])
    with ⟨f, na, w⟩
  rw [hfold] at hna
  have henable : svc.recent.enable env = svc.recent.enable_finalize f na w := by
    unfold svc.recent.enable
    rw [hfold]
  have hspec := svc_enable_finalize_spec f na w
  rw [henable]
  refine ⟨hspec.1, ?_, ?_, ?_⟩
  · rw [hspec.2.1, hspec.2.2.2.2]
  · rw [hspec.2.2.2.2]
    exact hna
  · rw [hspec.2.2.1, hspec.2.2.2.2, hspec.2.2.2.1]

/-- The result-assembly step of `recent.rs` `enable_recent`: the three
counters are carried through unchanged, and a positive `policy_blocked`
count selects the three-counter failure message. -/
theorem dom_enable_recent_finalize_spec (f fl pb : Nat) (w : List dom.RegWrite) :
    (dom.enable_recent_finalize f fl pb w).fixed_count = f
    ∧ (dom.enable_recent_finalize f fl pb w).failed_count = fl
    ∧ (dom.enable_recent_finalize f fl pb w).policy_blocked = pb
    ∧ (dom.enable_recent_finalize f fl pb w).writes = w
    ∧ (pb > 0 →
        (dom.enable_recent_finalize f fl pb w).res =
          dom.OperationResult.failure_result
            ("Включено " ++ toString f ++ " настроек, " ++ toString pb
              ++ " заблокировано политикой, " ++ toString fl ++ " ошибок")) := by
  refine ⟨rfl, rfl, rfl, rfl, ?_⟩
  intro h
  simp [dom.enable_recent_finalize, h]

/-- The write attempts recorded by the `enable_recent` loop: one HKCU
write per non-skipped check, in catalog order; no HKLM write is ever
attempted. -/
theorem dom_enable_fold_writes (env : dom.RecentEnableEnv) :
    (dom.get_all_recent_checks.foldl (dom.enable_recent_step env) (0, 0, 0, [])).2.2.2 =
      [ (Hive.HKCU, "Software\\Microsoft\\Windows\\CurrentVersion\\Policies\\Explorer",
          "NoRecentDocsHistory")
      , (Hive.HKCU, "Software\\Microsoft\\Windows\\CurrentVersion\\Policies\\Explorer",
          "ClearRecentDocsOnExit")
      , (Hive.HKCU, "Software\\Microsoft\\Windows\\CurrentVersion\\Explorer\\Advanced",
          "Start_TrackDocs")
      , (Hive.HKCU, "Software\\Microsoft\\Windows\\CurrentVersion\\Explorer\\Advanced",
          "Start_TrackProgs")
      , (Hive.HKCU, "Software\\Microsoft\\Windows\\CurrentVersion\\Explorer", "ShowRecent")
      , (Hive.HKCU, "Software\\Microsoft\\Windows\\CurrentVersion\\Explorer", "ShowFrequent")
      , (Hive.HKCU, "Software\\Microsoft\\Windows\\CurrentVersion\\Policies\\Comdlg32",
          "NoFileMru")
      , (Hive.HKCU, "Software\\Microsoft\\Windows\\CurrentVersion\\Policies\\Comdlg32",
          "NoPlacesBar") ] := by
  simp [dom.get_all_recent_checks, dom.enable_recent_step]

/-- The `policy_blocked` counter computed by the `enable_recent` loop:
exactly the skipped HKLM-scoped machine policy check, counted when its
current HKLM value differs from the expected 0. -/
theorem dom_enable_fold_policy_blocked (env : dom.RecentEnableEnv) :
    (dom.get_all_recent_checks.foldl (dom.enable_recent_step env) (0, 0, 0, [])).2.2.1 =
      (if env.reads.hklm "Software\\Microsoft\\Windows\\CurrentVersion\\Policies\\Explorer"
          "NoRecentDocsHistory" = some 0 then 0 else 1) := by
  by_cases h : env.reads.hklm "Software\\Microsoft\\Windows\\CurrentVersion\\Policies\\Explorer"
      "NoRecentDocsHistory" = some 0 <;>
    simp [dom.get_all_recent_checks, dom.enable_recent_step, dom.read_registry_check,
      dom.RecentCheck.is_blocking, dom.RecentCheck.is_enabled, h]

/-- C5 (amended): the comprehensive iteration's `enable_recent` skips the
HKLM-scoped policy check (every attempted write targets HKCU), counts
that check separately in `policy_blocked` when it is blocking, and — as
soon as `policy_blocked` is positive — reports the three independent
counters (fixed, blocked-by-policy, write failures) in its message.  The
layered iteration's `enable`, by contrast, writes policy checks to HKLM
as well and reports only a single fixed counter plus a needs-admin
note. -/
theorem C5_enable_recent_policy_skip :
    ∀ env : dom.RecentEnableEnv,
      ((dom.enable_recent env).writes.all (fun w => w.1 == Hive.HKCU) = true)
      ∧ ((Hive.HKLM, "Software\\Microsoft\\Windows\\CurrentVersion\\Policies\\Explorer",
            "NoRecentDocsHistory") ∉ (dom.enable_recent env).writes)
      ∧ ((dom.enable_recent env).policy_blocked =
          if env.reads.hklm "Software\\Microsoft\\Windows\\CurrentVersion\\Policies\\Explorer"
              "NoRecentDocsHistory" = some 0 then 0 else 1)
      ∧ ((dom.enable_recent env).policy_blocked > 0 →
          (dom.enable_recent env).res =
            dom.OperationResult.failure_result
              ("Включено " ++ toString (dom.enable_recent env).fixed_count ++ " настроек, "
                ++ toString (dom.enable_recent env).policy_blocked ++ " заблокировано политикой, "
                ++ toString (dom.enable_recent env).failed_count ++ " ошибок")) := by
  intro env
  have hw := dom_enable_fold_writes env
  have hp := dom_enable_fold_policy_blocked env
  rcases hfold : dom.get_all_recent_checks.foldl (dom.enable_recent_step env) (0, 0, 0, [])
    with ⟨f, fl, pb, w⟩
  rw [hfold] at hw hp
  have hw2 : w = _ := hw
  have hp2 : pb = _ := hp
  have henable : dom.enable_recent env = dom.enable_recent_finalize f fl pb w := by
    unfold dom.enable_recent
    rw [hfold]
  have hspec := dom_enable_recent_finalize_spec f fl pb w
  rw [henable]
  refine ⟨?_, ?_, ?_, ?_⟩
  · rw [hspec.2.2.2.1, hw2]
    decide
  · rw [hspec.2.2.2.1, hw2]
    decide
  · rw [hspec.2.2.1]
    exact hp2
  · intro hpos
    rw [hspec.2.2.1] at hpos
    rw [hspec.2.1, hspec.2.2.1, hspec.1]
    exact hspec.2.2.2.2 hpos

/-- C5 witness: on the concrete environment `c5_dom_env` (machine policy
blocking, every write succeeding), the three-counter message is
produced. -/
theorem C5_enable_recent_policy_skip_witness :
    (dom.enable_recent c5_dom_env).res =
      dom.OperationResult.failure_result
        ("Включено " ++ toString (dom.enable_recent c5_dom_env).fixed_count ++ " настроек, "
          ++ toString (dom.enable_recent c5_dom_env).policy_blocked ++ " заблокировано политикой, "
          ++ toString (dom.enable_recent c5_dom_env).failed_count ++ " ошибок") :=
  (C5_enable_recent_policy_skip c5_dom_env).2.2.2 (by decide)

/-- C5 counterexample: in the layered iteration's `enable` (also a run
of the Recent-files enable operation), the machine policy value
`NoRecentDocsHistory` *is* written to HKLM — the write list of the run
under `c5_env` contains the HKLM policy write, so "policy checks scoped
to HKLM are skipped (not written)" fails; that iteration's message also
carries a single counter rather than three. -/
theorem C5_enable_recent_policy_skip_counterexample :
    (Hive.HKLM, svc.recent.POLICY_KEY, "NoRecentDocsHistory")
        ∈ (svc.recent.enable c5_env).writes
      ∧ (svc.recent.enable c5_env).res.message = "Enabled 6 settings" := by
  constructor
  · decide
  · rfl

/-- C9 (confirmed): the directory scan returns
`FileStats{count: 0, oldest: None, newest: None}` without error when the
path does not exist (both iterations' scanners); otherwise it folds over
the case-insensitively matching files: the count equals the number of
matching files, a folder with exactly two matching files with times
T1 < T2 yields `{2, Some T1, Some T2}`, and `oldest ≤ newest` whenever
both are present. -/
theorem C9_scan_contract :
    (∀ (env : svc.FsEnv) (ext : List Char), env.path_exists = false →
        svc.file_system.scan_folder env ext = .ok svc.FileStats.empty)
    ∧ (∀ env : dom.PrefetchFsEnv, env.path_exists = false →
        (dom.scan_prefetch_directory env).count = 0
        ∧ (dom.scan_prefetch_directory env).oldest = none
        ∧ (dom.scan_prefetch_directory env).newest = none)
    ∧ (∀ (env : svc.FsEnv) (ext : List Char)
        (entries : List (Except String svc.DirEntry)), env.path_exists = true →
        env.read_dir = .ok entries →
        svc.file_system.scan_folder env ext = .ok
          { count := (svc.matching_times entries ext).length
            oldest := (svc.scan_fold (svc.matching_times entries ext)).2.1
            newest := (svc.scan_fold (svc.matching_times entries ext)).2.2 })
    ∧ (∀ (env : svc.FsEnv) (ext : List Char)
        (entries : List (Except String svc.DirEntry)) (t1 t2 : Nat),
        env.path_exists = true → env.read_dir = .ok entries →
        svc.matching_times entries ext = [t1, t2] → t1 < t2 →
        svc.file_system.scan_folder env ext =
          .ok { count := 2, oldest := some t1, newest := some t2 })
    ∧ (∀ (env : svc.FsEnv) (ext : List Char) (stats : svc.FileStats) (a b : Nat),
        svc.file_system.scan_folder env ext = .ok stats →
        stats.oldest = some a → stats.newest = some b → a ≤ b) := by
  have hscan : ∀ (env : svc.FsEnv) (ext : List Char)
      (entries : List (Except String svc.DirEntry)), env.path_exists = true →
      env.read_dir = .ok entries →
      svc.file_system.scan_folder env ext = .ok
        { count := (svc.matching_times entries ext).length
          oldest := (svc.scan_fold (svc.matching_times entries ext)).2.1
          newest := (svc.scan_fold (svc.matching_times entries ext)).2.2 } := by
    intro env ext entries h1 h2
    unfold svc.file_system.scan_folder
    rw [h1, h2]
    rcases hs : svc.scan_fold (svc.matching_times entries ext) with ⟨c, o, n⟩
    have hc : c = (svc.matching_times entries ext).length := by
      have := scan_fold_count (svc.matching_times entries ext)
      rw [hs] at this
      exact this
    simp [hs, hc]
  refine ⟨?_, ?_, hscan, ?_, ?_⟩
  · intro env ext h
    unfold svc.file_system.scan_folder
    rw [h]
    rfl
  · intro env h
    unfold dom.scan_prefetch_directory
    rw [h]
    exact ⟨rfl, rfl, rfl⟩
  · intro env ext entries t1 t2 h1 h2 hm hlt
    rw [hscan env ext entries h1 h2, hm]
    have : svc.scan_fold [t1, t2] = (2, some (min t1 t2), some (max t1 t2)) := rfl
    rw [this]
    simp [Nat.min_eq_left hlt.le, Nat.max_eq_right hlt.le]
  · intro env ext stats a b hok ho hn
    by_cases h1 : env.path_exists = true
    · cases h2 : env.read_dir with
      | error e =>
        unfold svc.file_system.scan_folder at hok
        rw [if_neg (by simp [h1]), h2] at hok
        cases hok
      | ok entries =>
        have heq := hscan env ext entries h1 h2
        rw [hok] at heq
        have h3 := Except.ok.inj heq
        rw [h3] at ho hn
        simp only at ho hn
        have hord := scan_fold_ordered (svc.matching_times entries ext)
        rcases hs : svc.scan_fold (svc.matching_times entries ext) with ⟨c, o, n⟩
        rw [hs] at ho hn hord
        have ho2 : o = some a := ho
        have hn2 : n = some b := hn
        rw [ho2, hn2] at hord
        exact hord
    · unfold svc.file_system.scan_folder at hok
      rw [if_pos (by simp [h1])] at hok
      have h3 := Except.ok.inj hok
      rw [← h3] at ho
      simp [svc.FileStats.empty] at ho

/-- C9 witness: the concrete missing-path environments yield empty stats,
and the concrete two-file folder (times 3 < 7, extensions "pf" and "PF"
against the query "pf") yields `{2, Some 3, Some 7}`. -/
theorem C9_scan_contract_witness :
    svc.file_system.scan_folder c9_missing "pf".toList = .ok svc.FileStats.empty
      ∧ (dom.scan_prefetch_directory c9_dom_missing).count = 0
      ∧ svc.file_system.scan_folder c9_two "pf".toList =
          .ok { count := 2, oldest := some 3, newest := some 7 } :=
  ⟨C9_scan_contract.1 c9_missing "pf".toList rfl,
   (C9_scan_contract.2.1 c9_dom_missing rfl).1,
   C9_scan_contract.2.2.2.1 c9_two "pf".toList
     [ .ok { ext := some "pf".toList, modified := some 3 }
     , .ok { ext := some "PF".toList, modified := some 7 } ]
     3 7 rfl rfl (by decide) (by decide)⟩

/-- C1 (amended): the layered iteration's `check_status` computes exactly
the specification's ordered algorithm on every check list.  The
comprehensive iteration's `get_recent_status` classification agrees with
the ordered algorithm on every check list in which all Critical checks
are policy checks — which is true of every list its fixed catalog can
produce, so `get_recent_status` itself always agrees — but on arbitrary
lists it additionally classifies `FullyDisabled` whenever any non-policy
Critical check fails. -/
theorem C1_recent_status_classification :
    (∀ cs : List svc.RegistryCheck,
        (svc.recent.check_status cs).kind = spec_status (cs.map svc.RegistryCheck.view))
    ∧ (∀ cs : List dom.RecentCheck,
        (∀ c ∈ cs, c.severity = .Critical → c.is_policy = true) →
        (dom.get_recent_status_core cs).kind = spec_status (cs.map dom.RecentCheck.view))
    ∧ (∀ r : RegReads,
        (dom.get_recent_status r).kind =
          spec_status ((dom.get_all_recent_checks.map (dom.read_registry_check r)).map
            dom.RecentCheck.view)) := by
  have ha : ∀ cs : List svc.RegistryCheck,
      (svc.recent.check_status cs).kind = spec_status (cs.map svc.RegistryCheck.view) := by
    intro cs
    have e1 : (cs.map svc.RegistryCheck.view).any (fun c => c.is_policy && !c.is_ok)
        = cs.any (fun c => c.is_policy && !c.is_ok) := by
      rw [list_any_map]
      rfl
    have e2 : ((cs.map svc.RegistryCheck.view).filter (fun c => c.important)).all
          (fun c => !c.is_ok)
        = (cs.filter (fun c => c.severity == .Important)).all (fun c => !c.is_ok) := by
      rw [list_filter_map, list_all_map]
      rfl
    have e3 : (cs.map svc.RegistryCheck.view).any (fun c => !c.is_ok)
        = cs.any (fun c => !c.is_ok) := by
      rw [list_any_map]
      rfl
    simp only [svc.recent.check_status, spec_status]
    rw [e1, e2, e3]
    by_cases h1 : (cs.any fun c => c.is_policy && !c.is_ok) = true
    · simp [h1, svc.RecentStatus.kind]
    · by_cases h2 : ((cs.filter fun c => c.severity == .Important).all fun c => !c.is_ok) = true
      · simp [h1, h2, svc.RecentStatus.kind]
      · by_cases h3 : (cs.any fun c => !c.is_ok) = true
        · simp [h1, h2, h3, svc.RecentStatus.kind]
        · simp [h1, h2, h3, svc.RecentStatus.kind]
  have hb : ∀ cs : List dom.RecentCheck,
      (∀ c ∈ cs, c.severity = .Critical → c.is_policy = true) →
      (dom.get_recent_status_core cs).kind = spec_status (cs.map dom.RecentCheck.view) := by
    intro cs hcrit
    have e1 : (cs.map dom.RecentCheck.view).any (fun c => c.is_policy && !c.is_ok)
        = cs.any (fun c => c.is_policy && c.is_blocking) := by
      rw [list_any_map]
      rfl
    have e2 : ((cs.map dom.RecentCheck.view).filter (fun c => c.important)).all
          (fun c => !c.is_ok)
        = (cs.filter (fun c => c.severity == .Important)).all (fun c => c.is_blocking) := by
      rw [list_filter_map, list_all_map]
      rfl
    have e3 : (cs.map dom.RecentCheck.view).any (fun c => !c.is_ok)
        = cs.any (fun c => c.is_blocking) := by
      rw [list_any_map]
      rfl
    simp only [dom.get_recent_status_core, spec_status]
    rw [e1, e2, e3, list_filter_isEmpty, Bool.not_not]
    by_cases hA : (cs.any fun c => c.is_policy && c.is_blocking) = true
    · simp [hA, dom.RecentStatus.kind]
    · have hnotany : ∀ c ∈ cs, ¬(c.is_policy && c.is_blocking) = true := by
        intro c hc hcontra
        exact hA ((list_any_eq _ _).mpr ⟨c, hc, hcontra⟩)
      have hcf : ((cs.filter fun c => c.severity == dom.CheckSeverity.Critical).filter
          fun c => c.is_blocking) = [] := by
        rw [List.filter_eq_nil_iff]
        intro c hc
        have hmem := List.mem_filter.mp hc
        have hsev : c.severity = dom.CheckSeverity.Critical := by simpa using hmem.2
        have hpol := hcrit c hmem.1 hsev
        intro hblk
        exact hnotany c hmem.1 (by rw [hpol, hblk]; rfl)
      rw [if_neg hA, if_neg hA, hcf]
      simp only [List.length_nil, show (decide ((0:Nat) > 0)) = false from rfl, Bool.false_or]
      have e4 : (((cs.filter fun c => c.severity == dom.CheckSeverity.Important).filter
              fun c => c.is_blocking).length ==
            (cs.filter fun c => c.severity == dom.CheckSeverity.Important).length)
          = ((cs.filter fun c => c.severity == dom.CheckSeverity.Important).all
              fun c => c.is_blocking) := by
        rw [Bool.eq_iff_iff]
        constructor
        · intro h
          rw [list_all_eq]
          exact fun c hc => (list_length_filter_eq_iff _ _).mp (by simpa using h) c hc
        · intro h
          have := (list_length_filter_eq_iff (fun c => c.is_blocking)
            (cs.filter fun c => c.severity == dom.CheckSeverity.Important)).mpr
            ((list_all_eq (fun c => c.is_blocking)
              (cs.filter fun c => c.severity == dom.CheckSeverity.Important)).mp h)
          simpa using this
      rw [e4]
      by_cases hB : ((cs.filter fun c => c.severity == dom.CheckSeverity.Important).all
          fun c => c.is_blocking) = true
      · simp [hB, dom.RecentStatus.kind]
      · rw [if_neg hB, if_neg hB]
        have e5 : (decide (0 < ((cs.filter fun c => c.severity == dom.CheckSeverity.Important).filter
                fun c => c.is_blocking).length) || cs.any fun c => c.is_blocking)
            = (cs.any fun c => c.is_blocking) := by
          by_cases hany : (cs.any fun c => c.is_blocking) = true
          · simp [hany]
          · have hz : ((cs.filter fun c => c.severity == dom.CheckSeverity.Important).filter
                fun c => c.is_blocking) = [] := by
              rw [List.filter_eq_nil_iff]
              intro c hc hblk
              exact hany ((list_any_eq _ _).mpr ⟨c, (List.mem_filter.mp hc).1, hblk⟩)
            simp [hz, hany]
        rw [e5]
        by_cases hC : (cs.any fun c => c.is_blocking) = true
        · simp [hC, dom.RecentStatus.kind]
        · simp [hC, dom.RecentStatus.kind]
  have hcat : ∀ c ∈ dom.get_all_recent_checks,
      c.severity = dom.CheckSeverity.Critical → c.is_policy = true := by decide
  refine ⟨ha, hb, ?_⟩
  intro r
  unfold dom.get_recent_status
  apply hb
  intro c hc hsev
  rw [List.mem_map] at hc
  obtain ⟨c₀, h₀, rfl⟩ := hc
  have hs : (dom.read_registry_check r c₀).severity = c₀.severity := rfl
  have hp : (dom.read_registry_check r c₀).is_policy = c₀.is_policy := rfl
  rw [hp]
  exact hcat c₀ h₀ (by rw [← hs]; exact hsev)

/-- C1 witness: the classification agreement at the concrete (unread)
catalogs of the two iterations. -/
theorem C1_recent_status_classification_witness :
    (svc.recent.check_status svc.recent.build_checks).kind =
        spec_status (svc.recent.build_checks.map svc.RegistryCheck.view)
      ∧ (dom.get_recent_status_core dom.get_all_recent_checks).kind =
          spec_status (dom.get_all_recent_checks.map dom.RecentCheck.view) :=
  ⟨C1_recent_status_classification.1 svc.recent.build_checks,
   C1_recent_status_classification.2.1 dom.get_all_recent_checks (by decide)⟩

/-- C1 counterexample: on the populated two-check list `c1_cex` — a
failing non-policy Critical check plus a passing Important check — the
spec's ordered algorithm classifies `PartiallyEnabled` (no policy block,
not all Important checks fail, some check fails), but
`get_recent_status`'s classification returns `FullyDisabled` because its
`critical_failed > 0` disjunct fires. -/
theorem C1_recent_status_classification_counterexample :
    (dom.get_recent_status_core c1_cex).kind = .FullyDisabled
      ∧ spec_status (c1_cex.map dom.RecentCheck.view) = .PartiallyEnabled
      ∧ (dom.get_recent_status_core c1_cex).kind ≠
          spec_status (c1_cex.map dom.RecentCheck.view) := by
  refine ⟨?_, ?_, ?_⟩ <;> decide

end RecentEnabler
